import Mathlib

/-!
Shallow embedding of the evaluation core of `src/T5DST/T5.py`
(`evaluate_model`, lines 139-194): the belief-state accumulator over the
`predictions` dictionary, the `slot_logger` per-slot counters, and the
finalize/persist phase.  Python dictionaries are modelled as association
lists in insertion order (Python dicts preserve insertion order); the
fallible parts (dictionary `KeyError` on an unknown slot, `ZeroDivisionError`
at finalize) are modelled with `Except`.  The external `evaluate_metrics`
function (imported from `evaluate.py`, which is not part of the evaluation
core modelled here) is taken as an opaque function parameter.
-/

namespace T5DST

/-- A single evaluation example as carried by one batch position inside
`evaluate_model`: `ID` is `batch["ID"][idx]`, `turn_id` is
`batch["turn_id"][idx]`, `domains` is `batch["domains"][idx]`, `slot_text` is
`batch["slot_text"][idx]`, `value_text` is `batch["value_text"][idx]`,
`turn_belief` is `batch["turn_belief"][idx]`, and `value` is the decoded
generated string for this example. -/
structure Example where
  ID : String
  turn_id : String
  domains : List String
  slot_text : String
  value_text : String
  turn_belief : List String
  value : String
deriving DecidableEq, Repr

/-- The per-turn record `predictions[dial_id]["turns"][turn_id]`:
a dictionary with keys `"turn_belief"` and `"pred_belief"`. -/
structure TurnRecord where
  turn_belief : List String
  pred_belief : List String
deriving DecidableEq, Repr

/-- The per-dialogue record `predictions[dial_id]`: a dictionary with keys
`"domain"` and `"turns"`; `turns` is a dictionary from turn id in insertion
order. -/
structure DialRecord where
  domain : String
  turns : List (String × TurnRecord)
deriving DecidableEq, Repr

/-- The `predictions` dictionary, keyed by dialogue id in insertion order. -/
abbrev Predictions := List (String × DialRecord)

/-- One `slot_logger` entry, the Python three-element list `[0, 0, 0]`:
field `total` models index 0, `hit` models index 1 and `acc` models index 2
(the accuracy written at finalize). -/
structure SlotLog where
  total : Nat
  hit : Nat
  acc : ℚ
deriving DecidableEq, Repr

/-- The `slot_logger` dictionary, keyed by slot name in insertion order. -/
abbrev SlotLogger := List (String × SlotLog)

/-- Python dictionary lookup on an association list (first match). -/
def lookupA {α : Type} (k : String) : List (String × α) → Option α
  | [] => none
  | (k2, v) :: rest => if k = k2 then some v else lookupA k rest

/-- Python dictionary in-place update `d[k] = f d[k]` on an association list:
rewrites the first entry with key `k`, leaves everything else alone. -/
def updateAssoc {α : Type} (k : String) (f : α → α) : List (String × α) → List (String × α)
  | [] => []
  | (k2, v) :: rest => if k = k2 then (k2, f v) :: rest else (k2, v) :: updateAssoc k f rest

/-- Lines 153-156: `if dial_id not in predictions:` create the dialogue record
with `domain = batch["domains"][idx][0]` and an empty `turns` dictionary. -/
def ensureDial (preds : Predictions) (ex : Example) : Predictions :=
  if (lookupA ex.ID preds).isNone then
    preds ++ [(ex.ID, { domain := ex.domains.headD "", turns := [] })]
  else preds

/-- Lines 157-161: `if batch["turn_id"][idx] not in predictions[dial_id]["turns"]:`
create the turn record holding the ground-truth `turn_belief` verbatim and an
empty `pred_belief` list. -/
def ensureTurn (preds : Predictions) (ex : Example) : Predictions :=
  updateAssoc ex.ID (fun d =>
    if (lookupA ex.turn_id d.turns).isNone then
      { d with turns := d.turns ++
          [(ex.turn_id, { turn_belief := ex.turn_belief, pred_belief := [] })] }
    else d) preds

/-- Lines 163-166: `if value != "none":` append
`str(batch["slot_text"][idx]) + "-" + str(value)` to the turn's `pred_belief`. -/
def appendPred (preds : Predictions) (ex : Example) : Predictions :=
  if ex.value ≠ "none" then
    updateAssoc ex.ID (fun d =>
      { d with
        turns :=
          updateAssoc ex.turn_id
            (fun t =>
              { t with pred_belief := t.pred_belief ++ [ex.slot_text ++ "-" ++ ex.value] })
            d.turns }) preds
  else preds

/-- The accumulator part of the per-example body of the loop in
`evaluate_model` (lines 151-166). -/
def ingestPred (preds : Predictions) (ex : Example) : Predictions :=
  appendPred (ensureTurn (ensureDial preds ex) ex) ex

/-- The errors the evaluation loop and finalize phase can raise:
`keyError` models the Python `KeyError` from subscripting `slot_logger` with
an unknown slot name; `zeroDivisionError` models the `ZeroDivisionError` from
`slot_log[1] / slot_log[0]` with `slot_log[0] == 0`. -/
inductive EvalErr where
  | keyError
  | zeroDivisionError
deriving DecidableEq, Repr

/-- Lines 168-171: `if str(value) == str(batch["value_text"][idx]):` increment
`slot_logger[slot][1]` (hit); always increment `slot_logger[slot][0]` (total).
Subscripting `slot_logger` with a slot name that is not a key raises
`KeyError`. -/
def recordSlot (logger : SlotLogger) (ex : Example) : Except EvalErr SlotLogger :=
  match lookupA ex.slot_text logger with
  | none => .error .keyError
  | some _ =>
      .ok (updateAssoc ex.slot_text (fun l =>
        let l1 := if ex.value = ex.value_text then { l with hit := l.hit + 1 } else l
        { l1 with total := l1.total + 1 }) logger)

/-- The mutable state of one evaluation pass: the `predictions` dictionary and
the `slot_logger` dictionary. -/
structure EvalState where
  predictions : Predictions
  slot_logger : SlotLogger
deriving DecidableEq, Repr

/-- The whole per-example body of the loop in `evaluate_model`
(lines 151-171): update `predictions`, then update `slot_logger`. -/
def ingestExample (st : EvalState) (ex : Example) : Except EvalErr EvalState := do
  let preds := ingestPred st.predictions ex
  let logger ← recordSlot st.slot_logger ex
  return { predictions := preds, slot_logger := logger }

/-- Line 139: `slot_logger = {slot_name: [0, 0, 0] for slot_name in ALL_SLOTS}`. -/
def initLogger (ALL_SLOTS : List String) : SlotLogger :=
  ALL_SLOTS.map (fun slot_name => (slot_name, { total := 0, hit := 0, acc := 0 }))

/-- Lines 173-174: `for slot_log in slot_logger.values(): slot_log[2] =
slot_log[1] / slot_log[0]` — division is modelled exactly over ℚ; a zero
total raises `ZeroDivisionError` at the first such entry in order. -/
def finalizeLogger : SlotLogger → Except EvalErr SlotLogger
  | [] => .ok []
  | (s, l) :: rest =>
      if l.total = 0 then .error .zeroDivisionError
      else do
        let rest2 ← finalizeLogger rest
        return (s, { l with acc := (l.hit : ℚ) / (l.total : ℚ) }) :: rest2

/-- The JSON row serialized for one slot: the three-element list
`[total, hit, acc]` in index order. -/
def slotAccRow (l : SlotLog) : List ℚ :=
  [(l.total : ℚ), (l.hit : ℚ), l.acc]

/-- The three files `evaluate_model` persists, in the order it writes them:
`{prefix}_slot_acc.json` (line 176), `{prefix}_prediction.json` (line 179),
`{prefix}_result.json` (line 191, after `evaluate_metrics` at line 182). -/
structure RunOutput where
  slot_acc_file : List (String × List ℚ)
  prediction_file : Predictions
  result_file : List (String × ℚ)
deriving DecidableEq, Repr

/-- Lines 173-192 of `evaluate_model`: finalize the slot logger (which raises
on a zero total before anything is written), persist the slot-accuracy
document, persist the predictions document, call the external
`evaluate_metrics` (returning `joint_acc_score, F1_score, turn_acc_score`),
and persist the metrics document with keys `"Joint Acc"`, `"Turn Acc"`,
`"Joint F1"`. -/
def finalizeAndPersist (ALL_SLOTS : List String)
    (evaluate_metrics : Predictions → List String → ℚ × ℚ × ℚ)
    (st : EvalState) : Except EvalErr RunOutput := do
  let finalized ← finalizeLogger st.slot_logger
  let slot_acc := finalized.map (fun p => (p.1, slotAccRow p.2))
  let m := evaluate_metrics st.predictions ALL_SLOTS
  let joint_acc_score := m.1
  let F1_score := m.2.1
  let turn_acc_score := m.2.2
  return { slot_acc_file := slot_acc
           prediction_file := st.predictions
           result_file := [("Joint Acc", joint_acc_score),
                           ("Turn Acc", turn_acc_score),
                           ("Joint F1", F1_score)] }

/-- The evaluation pass of `evaluate_model` (lines 139-194) over a flattened
stream of examples, with the generative model already decoded into each
example's `value` and `evaluate_metrics` as an opaque external function. -/
def evaluate_model (ALL_SLOTS : List String)
    (evaluate_metrics : Predictions → List String → ℚ × ℚ × ℚ)
    (examples : List Example) : Except EvalErr RunOutput := do
  let st0 : EvalState := { predictions := [], slot_logger := initLogger ALL_SLOTS }
  let stF ← examples.foldlM ingestExample st0
  finalizeAndPersist ALL_SLOTS evaluate_metrics stF

/-- `predictions[did]["turns"][tid]`, when present. -/
def getTurn (preds : Predictions) (did tid : String) : Option TurnRecord :=
  match lookupA did preds with
  | none => none
  | some d => lookupA tid d.turns

/-- The finalized form of one logger entry: `acc` overwritten with the exact
ratio `hit / total`. -/
def finalizeRow (l : SlotLog) : SlotLog :=
  { l with acc := (l.hit : ℚ) / (l.total : ℚ) }

instance {ε α : Type} [DecidableEq ε] [DecidableEq α] :
    DecidableEq (Except ε α) := fun a b =>
  match a, b with
  | .ok x, .ok y =>
      match decEq x y with
      | isTrue h => isTrue (congrArg Except.ok h)
      | isFalse h => isFalse (fun hh => h (Except.ok.inj hh))
  | .error e, .error f =>
      match decEq e f with
      | isTrue h => isTrue (congrArg Except.error h)
      | isFalse h => isFalse (fun hh => h (Except.error.inj hh))
  | .ok _, .error _ => isFalse (fun hh => Except.noConfusion hh)
  | .error _, .ok _ => isFalse (fun hh => Except.noConfusion hh)

/-! ### Association-list lemmas -/

theorem lookupA_updateAssoc_self {α : Type} (k : String) (f : α → α)
    (l : List (String × α)) :
    lookupA k (updateAssoc k f l) = (lookupA k l).map f := by
  induction l with
  | nil => simp [lookupA, updateAssoc]
  | cons p rest ih =>
    obtain ⟨k2, v⟩ := p
    by_cases h : k = k2 <;> simp [lookupA, updateAssoc, h, ih]

theorem lookupA_updateAssoc_ne {α : Type} {k k2 : String} (f : α → α)
    (l : List (String × α)) (h : k ≠ k2) :
    lookupA k (updateAssoc k2 f l) = lookupA k l := by
  induction l with
  | nil => simp [lookupA, updateAssoc]
  | cons p rest ih =>
    obtain ⟨k3, v⟩ := p
    by_cases h2 : k2 = k3
    · subst h2
      simp [lookupA, updateAssoc, h]
    · by_cases h3 : k = k3 <;> simp [lookupA, updateAssoc, h2, h3, ih]

theorem lookupA_append_of_some {α : Type} {k : String} {l1 : List (String × α)}
    {v : α} (l2 : List (String × α)) (h : lookupA k l1 = some v) :
    lookupA k (l1 ++ l2) = some v := by
  induction l1 with
  | nil => simp [lookupA] at h
  | cons p rest ih =>
    obtain ⟨k2, w⟩ := p
    by_cases h2 : k = k2 <;> simp_all [lookupA]

theorem lookupA_append_of_none {α : Type} {k : String} {l1 : List (String × α)}
    (l2 : List (String × α)) (h : lookupA k l1 = none) :
    lookupA k (l1 ++ l2) = lookupA k l2 := by
  induction l1 with
  | nil => simp
  | cons p rest ih =>
    obtain ⟨k2, w⟩ := p
    by_cases h2 : k = k2 <;> simp_all [lookupA]

theorem updateAssoc_lookup_id {α : Type} {k : String} {l : List (String × α)}
    {v : α} {f : α → α} (h : lookupA k l = some v) (hf : f v = v) :
    updateAssoc k f l = l := by
  induction l with
  | nil => simp [lookupA] at h
  | cons p rest ih =>
    obtain ⟨k2, w⟩ := p
    by_cases h2 : k = k2
    · simp only [lookupA, if_pos h2, Option.some.injEq] at h
      subst h
      simp [updateAssoc, h2, hf]
    · simp only [lookupA, if_neg h2] at h
      simp [updateAssoc, h2, ih h]

theorem map_fst_updateAssoc {α : Type} (k : String) (f : α → α)
    (l : List (String × α)) :
    (updateAssoc k f l).map Prod.fst = l.map Prod.fst := by
  induction l with
  | nil => simp [updateAssoc]
  | cons p rest ih =>
    obtain ⟨k2, v⟩ := p
    by_cases h : k = k2 <;> simp [updateAssoc, h, ih]

theorem lookupA_eq_none_of_not_mem {α : Type} {k : String}
    {l : List (String × α)} (h : k ∉ l.map Prod.fst) :
    lookupA k l = none := by
  induction l with
  | nil => simp [lookupA]
  | cons p rest ih =>
    obtain ⟨k2, v⟩ := p
    simp only [List.map_cons, List.mem_cons, not_or] at h
    simp [lookupA, h.1, ih h.2]

theorem lookupA_map_value {α β : Type} (k : String) (g : α → β)
    (l : List (String × α)) :
    lookupA k (l.map (fun p => (p.1, g p.2))) = (lookupA k l).map g := by
  induction l with
  | nil => simp [lookupA]
  | cons p rest ih =>
    obtain ⟨k2, v⟩ := p
    by_cases h : k = k2 <;> simp [lookupA, h, ih]

/-! ### Characterizing one accumulator step -/

theorem lookupA_append_single_ne {α : Type} {k k2 : String} (v : α)
    (l : List (String × α)) (h : k ≠ k2) :
    lookupA k (l ++ [(k2, v)]) = lookupA k l := by
  cases hl : lookupA k l with
  | none =>
    rw [lookupA_append_of_none _ hl]
    simp [lookupA, h]
  | some w => rw [lookupA_append_of_some _ hl]

theorem lookupA_ensureDial_self (preds : Predictions) (ex : Example) :
    lookupA ex.ID (ensureDial preds ex) =
      some ((lookupA ex.ID preds).getD { domain := ex.domains.headD "", turns := [] }) := by
  cases hd : lookupA ex.ID preds with
  | none =>
    rw [ensureDial, hd]
    simp only [Option.isNone_none, if_pos]
    rw [lookupA_append_of_none _ hd]
    simp [lookupA]
  | some d => simp [ensureDial, hd]

theorem lookupA_ensureDial_ne {did : String} (preds : Predictions) (ex : Example)
    (h : did ≠ ex.ID) :
    lookupA did (ensureDial preds ex) = lookupA did preds := by
  cases hd : lookupA ex.ID preds with
  | none =>
    rw [ensureDial, hd]
    simp only [Option.isNone_none, if_pos]
    cases hd2 : lookupA did preds with
    | none =>
      rw [lookupA_append_of_none _ hd2]
      simp [lookupA, h]
    | some d => rw [lookupA_append_of_some _ hd2]
  | some d => simp [ensureDial, hd]

theorem getTurn_ingestPred_ne_dial {did : String} (preds : Predictions) (ex : Example)
    (tid : String) (h : did ≠ ex.ID) :
    getTurn (ingestPred preds ex) did tid = getTurn preds did tid := by
  rw [ingestPred, getTurn, getTurn, appendPred, ensureTurn]
  by_cases hv : ex.value ≠ "none" <;>
    simp [hv, lookupA_updateAssoc_ne _ _ h, lookupA_ensureDial_ne _ _ h]

theorem getTurn_ingestPred_ne_turn {tid : String} (preds : Predictions) (ex : Example)
    (h : tid ≠ ex.turn_id) :
    getTurn (ingestPred preds ex) ex.ID tid = getTurn preds ex.ID tid := by
  rw [ingestPred, getTurn, getTurn, appendPred, ensureTurn]
  have hd := lookupA_ensureDial_self preds ex
  cases hp : lookupA ex.ID preds with
  | none =>
    rw [hp] at hd
    simp only [Option.getD_some, Option.getD_none] at hd
    by_cases hv : ex.value ≠ "none" <;>
      simp [hv, lookupA_updateAssoc_self, hd, lookupA, lookupA_updateAssoc_ne _ _ h, h]
  | some d =>
    rw [hp] at hd
    simp only [Option.getD_some] at hd
    by_cases hv : ex.value ≠ "none" <;>
      cases ht : lookupA ex.turn_id d.turns <;>
        simp [hv, lookupA_updateAssoc_self, hd, ht, lookupA_updateAssoc_ne _ _ h,
          lookupA_append_single_ne _ _ h]

theorem getTurn_ingestPred_self (preds : Predictions) (ex : Example) :
    getTurn (ingestPred preds ex) ex.ID ex.turn_id =
      some { turn_belief :=
               ((getTurn preds ex.ID ex.turn_id).map TurnRecord.turn_belief).getD ex.turn_belief
             pred_belief :=
               ((getTurn preds ex.ID ex.turn_id).map TurnRecord.pred_belief).getD []
                 ++ (if ex.value ≠ "none" then [ex.slot_text ++ "-" ++ ex.value] else []) } := by
  rw [ingestPred, getTurn, getTurn, appendPred, ensureTurn]
  have hd := lookupA_ensureDial_self preds ex
  cases hp : lookupA ex.ID preds with
  | none =>
    rw [hp] at hd
    simp only [Option.getD_none] at hd
    by_cases hv : ex.value ≠ "none" <;>
      simp [hv, lookupA_updateAssoc_self, hd, lookupA]
  | some d =>
    rw [hp] at hd
    simp only [Option.getD_some] at hd
    cases ht : lookupA ex.turn_id d.turns with
    | none =>
      by_cases hv : ex.value ≠ "none" <;>
        simp [hv, lookupA_updateAssoc_self, hd, ht, lookupA_append_of_none _ ht, lookupA]
    | some t =>
      by_cases hv : ex.value ≠ "none" <;>
        simp [hv, lookupA_updateAssoc_self, hd, ht]

theorem getTurn_ingestPred_turn_belief {preds : Predictions} {did tid : String}
    {t : TurnRecord} (ex : Example) (h : getTurn preds did tid = some t) :
    ∃ t2, getTurn (ingestPred preds ex) did tid = some t2 ∧
      t2.turn_belief = t.turn_belief := by
  by_cases hdid : did = ex.ID
  · subst hdid
    by_cases htid : tid = ex.turn_id
    · subst htid
      refine ⟨_, getTurn_ingestPred_self preds ex, ?_⟩
      simp [h]
    · exact ⟨t, by rw [getTurn_ingestPred_ne_turn _ _ htid, h], rfl⟩
  · exact ⟨t, by rw [getTurn_ingestPred_ne_dial _ _ _ hdid, h], rfl⟩

/-! ### Finalize-phase lemmas -/

theorem except_bind_ok {ε α β : Type} (a : α) (f : α → Except ε β) :
    (Except.ok a : Except ε α) >>= f = f a := rfl

theorem except_bind_error {ε α β : Type} (e : ε) (f : α → Except ε β) :
    (Except.error e : Except ε α) >>= f = Except.error e := rfl

theorem except_pure_eq_ok {ε α : Type} (a : α) :
    (pure a : Except ε α) = Except.ok a := rfl

theorem finalizeLogger_ok {logger fin : SlotLogger}
    (h : finalizeLogger logger = .ok fin) :
    fin = logger.map (fun p => (p.1, finalizeRow p.2)) := by
  induction logger generalizing fin with
  | nil =>
    rw [finalizeLogger] at h
    cases h
    simp
  | cons p rest ih =>
    obtain ⟨s, l⟩ := p
    by_cases h0 : l.total = 0
    · rw [finalizeLogger, if_pos h0] at h
      cases h
    · rw [finalizeLogger, if_neg h0] at h
      cases hr : finalizeLogger rest with
      | error e =>
        rw [hr] at h
        cases h
      | ok r =>
        rw [hr, except_bind_ok, except_pure_eq_ok] at h
        cases h
        simp [ih hr, finalizeRow]

theorem finalizeLogger_singleton (s : String) (l : SlotLog) (h : l.total ≠ 0) :
    finalizeLogger [(s, l)] =
      .ok [(s, { l with acc := (l.hit : ℚ) / (l.total : ℚ) })] := by
  rw [finalizeLogger, if_neg h]
  rfl

theorem finalizeLogger_error_of_mem_zero {logger : SlotLogger} {s : String}
    {l : SlotLog} (hmem : (s, l) ∈ logger) (h0 : l.total = 0) :
    finalizeLogger logger = .error .zeroDivisionError := by
  induction logger with
  | nil => cases hmem
  | cons p rest ih =>
    obtain ⟨s2, l2⟩ := p
    rcases List.mem_cons.mp hmem with hhd | htl
    · cases hhd
      rw [finalizeLogger, if_pos h0]
    · by_cases h2 : l2.total = 0
      · rw [finalizeLogger, if_pos h2]
      · rw [finalizeLogger, if_neg h2, ih htl]
        rfl

/-- The slot logger's key set is an invariant of the loop: a successful step
never adds or removes a slot, so a state reached from `initLogger ALL_SLOTS`
always has exactly the keys `ALL_SLOTS`. -/
theorem ingestExample_keys_preserved {st st2 : EvalState} (ex : Example)
    (h : ingestExample st ex = .ok st2) :
    st2.slot_logger.map Prod.fst = st.slot_logger.map Prod.fst := by
  unfold ingestExample recordSlot at h
  cases hl : lookupA ex.slot_text st.slot_logger with
  | none =>
    rw [hl, except_bind_error] at h
    cases h
  | some l =>
    rw [hl, except_bind_ok, except_pure_eq_ok] at h
    cases h
    exact map_fst_updateAssoc _ _ _

/-! ### Claim theorems -/

/-- Claim C1: for every ingested example, the accumulator appends
`slot_name ++ "-" ++ generated_value` to the turn's predicted belief if and
only if the generated value is not exactly the literal string `"none"`
(case-sensitive exact comparison); when it equals `"none"`, the predicted
belief is left unchanged. -/
theorem c1_pred_belief_inclusion (preds : Predictions) (ex : Example) :
    (getTurn (ingestPred preds ex) ex.ID ex.turn_id).map TurnRecord.pred_belief =
      some (((getTurn preds ex.ID ex.turn_id).map TurnRecord.pred_belief).getD []
        ++ (if ex.value = "none" then [] else [ex.slot_text ++ "-" ++ ex.value])) := by
  rw [getTurn_ingestPred_self]
  by_cases hv : ex.value = "none" <;> simp [hv]

/-- Claim C2: if at finalize time any slot has total count 0, the accuracy
computation raises the `ZeroDivisionError` of `slot_log[1] / slot_log[0]`,
and the whole finalize-and-persist phase aborts with that error — for every
possible metrics function, no slot-accuracy, prediction or metrics document
is produced (the `Except.error` result carries no `RunOutput`). -/
theorem c2_finalize_zero_total_halts (ALL_SLOTS : List String)
    (evaluate_metrics : Predictions → List String → ℚ × ℚ × ℚ)
    (st : EvalState) (s : String) (l : SlotLog)
    (hmem : (s, l) ∈ st.slot_logger) (h0 : l.total = 0) :
    finalizeAndPersist ALL_SLOTS evaluate_metrics st =
      .error .zeroDivisionError := by
  unfold finalizeAndPersist
  rw [finalizeLogger_error_of_mem_zero hmem h0, except_bind_error]

/-- Claim C3: for every processed example whose slot is a key of the slot
logger, the total counter of that slot goes up by exactly one, the hit
counter goes up by exactly one if and only if the generated value equals the
ground-truth value under exact string comparison, and the comparison does not
special-case `"none"`. -/
theorem c3_slot_logger_counts (logger : SlotLogger) (ex : Example) (l : SlotLog)
    (h : lookupA ex.slot_text logger = some l) :
    (recordSlot logger ex).map (fun lg => lookupA ex.slot_text lg) =
      Except.ok (some { total := l.total + 1,
                        hit := l.hit + (if ex.value = ex.value_text then 1 else 0),
                        acc := l.acc }) := by
  unfold recordSlot
  rw [h]
  have : (Except.ok (updateAssoc ex.slot_text (fun l =>
      let l1 := if ex.value = ex.value_text then { l with hit := l.hit + 1 } else l
      { l1 with total := l1.total + 1 }) logger) : Except EvalErr SlotLogger).map
      (fun lg => lookupA ex.slot_text lg) =
      Except.ok (lookupA ex.slot_text (updateAssoc ex.slot_text (fun l =>
        let l1 := if ex.value = ex.value_text then { l with hit := l.hit + 1 } else l
        { l1 with total := l1.total + 1 }) logger)) := rfl
  rw [this, lookupA_updateAssoc_self, h]
  by_cases hv : ex.value = ex.value_text <;> simp [hv]

/-- Claim C4: the ground-truth turn belief stored for a (dialogue, turn) pair
is never overwritten or modified by any sequence of later ingested examples;
the turn record stays present with the same `turn_belief`. -/
theorem c4_turn_belief_never_overwritten (preds : Predictions)
    (exs : List Example) (did tid : String) (t : TurnRecord)
    (h : getTurn preds did tid = some t) :
    (getTurn (exs.foldl ingestPred preds) did tid).map TurnRecord.turn_belief =
      some t.turn_belief := by
  induction exs generalizing preds t with
  | nil => simp [h]
  | cons e rest ih =>
    obtain ⟨t2, h2, hb⟩ := getTurn_ingestPred_turn_belief e h
    rw [List.foldl_cons, ih _ _ h2, hb]

/-- Claim C5 counterexample: the claim says the domain is stored in the
turn's record at first sighting of the turn id, but the code stores the
domain only once, in the dialogue record, at first sighting of the dialogue
id.  Concretely: after ingesting an example creating dialogue `"D1"` with
domains `["hotel"]` at turn `"0"`, a second example first-sighting turn `"1"`
with domains `["train"]` leaves the accumulator with a single stored domain
`"hotel"`, and turn `"1"`'s record holds only `turn_belief`/`pred_belief` —
the `"train"` domain supplied at the turn's first sighting is stored
nowhere. -/
theorem c5_counterexample :
    ingestPred (ingestPred []
        { ID := "D1", turn_id := "0", domains := ["hotel"],
          slot_text := "hotel-area", value_text := "east",
          turn_belief := ["hotel-area-east"], value := "none" })
        { ID := "D1", turn_id := "1", domains := ["train"],
          slot_text := "hotel-area", value_text := "east",
          turn_belief := ["hotel-area-east"], value := "none" } =
      [("D1", { domain := "hotel",
                turns := [("0", { turn_belief := ["hotel-area-east"],
                                  pred_belief := [] }),
                          ("1", { turn_belief := ["hotel-area-east"],
                                  pred_belief := [] })] })] ∧
    ("train" : String) ≠ "hotel" := by
  constructor
  · decide
  · decide

/-- Claim C5 (amended): on first sighting of a dialogue_id the accumulator
creates its record and stores that example's domain (the head of its domains
sequence) in the dialogue record — not in the per-turn record; on first
sighting of a turn_id it stores the full ground-truth turn belief verbatim in
that turn's record and initializes the turn's predicted belief to the empty
collection (so that after this first ingestion the predicted belief holds
exactly the example's own non-"none" contribution, if any). -/
theorem c5_first_sighting (preds : Predictions) (ex : Example)
    (h : lookupA ex.ID preds = none) :
    (lookupA ex.ID (ingestPred preds ex)).map DialRecord.domain =
      some (ex.domains.headD "") ∧
    (getTurn (ingestPred preds ex) ex.ID ex.turn_id).map TurnRecord.turn_belief =
      some ex.turn_belief ∧
    (getTurn (ingestPred preds ex) ex.ID ex.turn_id).map TurnRecord.pred_belief =
      some (if ex.value ≠ "none" then [ex.slot_text ++ "-" ++ ex.value] else []) := by
  have hgt : getTurn preds ex.ID ex.turn_id = none := by
    rw [getTurn, h]
  have hd0 : lookupA ex.ID (ensureDial preds ex) =
      some { domain := ex.domains.headD "", turns := [] } := by
    rw [lookupA_ensureDial_self, h]
    rfl
  refine ⟨?_, ?_, ?_⟩
  · rw [ingestPred, appendPred, ensureTurn]
    by_cases hv : ex.value ≠ "none" <;>
      simp [hv, lookupA_updateAssoc_self, hd0, lookupA]
  · rw [getTurn_ingestPred_self, hgt]
    simp
  · rw [getTurn_ingestPred_self, hgt]
    simp

/-- Claim C6 counterexample: the claim says ingesting an example with
generated value `"none"` leaves the accumulator state unchanged, but the
first such ingestion on a fresh state creates the dialogue and turn records:
starting from the empty accumulator the state after is nonempty. -/
theorem c6_counterexample :
    ingestPred []
        { ID := "D1", turn_id := "0", domains := ["hotel"],
          slot_text := "hotel-area", value_text := "east",
          turn_belief := ["hotel-area-east"], value := "none" } ≠
      ([] : Predictions) := by
  decide

/-- Claim C6 (amended): ingesting an example with generated value `"none"`
never adds to any turn's predicted belief, and once the dialogue and turn
records exist (in particular after the first such ingestion) the ingestion is
a complete no-op on the accumulator state, any number of times. -/
theorem c6_none_noop (preds : Predictions) (ex : Example) (t : TurnRecord)
    (hv : ex.value = "none") (h : getTurn preds ex.ID ex.turn_id = some t) :
    ingestPred preds ex = preds := by
  have hd : ∃ d, lookupA ex.ID preds = some d ∧
      lookupA ex.turn_id d.turns = some t := by
    rw [getTurn] at h
    cases hp : lookupA ex.ID preds with
    | none => rw [hp] at h; cases h
    | some d => rw [hp] at h; exact ⟨d, rfl, h⟩
  obtain ⟨d, hp, ht⟩ := hd
  have h1 : ensureDial preds ex = preds := by
    rw [ensureDial, hp]
    rfl
  have h2 : ensureTurn preds ex = preds := by
    rw [ensureTurn]
    exact updateAssoc_lookup_id hp (by simp [ht])
  rw [ingestPred, h1, h2, appendPred, hv]
  simp

/-- Claim C7: on a successful finalize, the persisted slot-accuracy document
maps every slot name of the logger (that is, every slot of `ALL_SLOTS`) to
the three-element row `[total, hit, hit/total]` in that order, and the
persisted metrics document has exactly the keys `"Joint Acc"`, `"Turn Acc"`,
`"Joint F1"`, in that order. -/
theorem c7_output_documents (ALL_SLOTS : List String)
    (evaluate_metrics : Predictions → List String → ℚ × ℚ × ℚ)
    (st : EvalState) (out : RunOutput)
    (hkeys : st.slot_logger.map Prod.fst = ALL_SLOTS)
    (h : finalizeAndPersist ALL_SLOTS evaluate_metrics st = .ok out) :
    out.slot_acc_file.map Prod.fst = ALL_SLOTS ∧
    out.slot_acc_file = st.slot_logger.map (fun p =>
      (p.1, [(p.2.total : ℚ), (p.2.hit : ℚ),
             (p.2.hit : ℚ) / (p.2.total : ℚ)])) ∧
    out.result_file.map Prod.fst = ["Joint Acc", "Turn Acc", "Joint F1"] := by
  unfold finalizeAndPersist at h
  cases hf : finalizeLogger st.slot_logger with
  | error e =>
    rw [hf, except_bind_error] at h
    cases h
  | ok fin =>
    rw [hf, except_bind_ok] at h
    rw [show ∀ o : RunOutput, (pure o : Except EvalErr RunOutput) = .ok o from
      fun _ => rfl] at h
    cases h
    have hfin := finalizeLogger_ok hf
    subst hfin
    refine ⟨?_, ?_, rfl⟩
    · simp only [List.map_map]
      rw [← hkeys]
      rfl
    · simp [List.map_map, slotAccRow, finalizeRow, Function.comp]

/-- Claim C8: a slot whose counters at finalize are exactly 10 total and 7
hits receives the accuracy ratio `7 / 10`, which as an exact rational equals
`0.7`. -/
theorem c8_exact_ratio (logger fin : SlotLogger) (s : String) (a : ℚ)
    (h : lookupA s logger = some { total := 10, hit := 7, acc := a })
    (hfin : finalizeLogger logger = .ok fin) :
    (lookupA s fin).map SlotLog.acc = some ((7 : ℚ) / 10) ∧
    ((7 : ℚ) / 10) = 0.7 := by
  constructor
  · rw [finalizeLogger_ok hfin, lookupA_map_value, h]
    simp [finalizeRow]
  · norm_num

/-- Claim C9: ingesting two examples for the same (dialogue, turn, slot)
with two non-`"none"` generated values appends both entries to the turn's
predicted belief, in order, without overwriting or deduplicating the
earlier one. -/
theorem c9_duplicate_append (preds : Predictions) (ex1 ex2 : Example)
    (hID : ex2.ID = ex1.ID) (hturn : ex2.turn_id = ex1.turn_id)
    (hslot : ex2.slot_text = ex1.slot_text)
    (h1 : ex1.value ≠ "none") (h2 : ex2.value ≠ "none") :
    (getTurn (ingestPred (ingestPred preds ex1) ex2) ex1.ID ex1.turn_id).map
        TurnRecord.pred_belief =
      some (((getTurn preds ex1.ID ex1.turn_id).map TurnRecord.pred_belief).getD []
        ++ [ex1.slot_text ++ "-" ++ ex1.value,
            ex1.slot_text ++ "-" ++ ex2.value]) := by
  have g1 := getTurn_ingestPred_self preds ex1
  have g2 := getTurn_ingestPred_self (ingestPred preds ex1) ex2
  rw [hID, hturn] at g2
  rw [g2, g1, ← hslot]
  simp [h1, h2]

/-- Claim C10: processing an example whose slot name is not among the slot
logger's keys (pre-initialized from `ALL_SLOTS` and never extended) fails
with the missing-key error from subscripting `slot_logger`, rather than
accepting the example. -/
theorem c10_unknown_slot_key_error (ALL_SLOTS : List String) (st : EvalState)
    (ex : Example) (hkeys : st.slot_logger.map Prod.fst = ALL_SLOTS)
    (hs : ex.slot_text ∉ ALL_SLOTS) :
    ingestExample st ex = .error .keyError := by
  have hnone : lookupA ex.slot_text st.slot_logger = none :=
    lookupA_eq_none_of_not_mem (by rw [hkeys]; exact hs)
  have hrec : recordSlot st.slot_logger ex = .error .keyError := by
    unfold recordSlot
    rw [hnone]
  unfold ingestExample
  rw [hrec, except_bind_error]

/-! ### Witnesses -/

/-- Witness for C2 at a one-slot logger that was never recorded into. -/
theorem c2_witness :
    finalizeAndPersist ["hotel-area"] (fun _ _ => (0, 0, 0))
        { predictions := [], slot_logger := initLogger ["hotel-area"] } =
      Except.error EvalErr.zeroDivisionError :=
  c2_finalize_zero_total_halts ["hotel-area"] (fun _ _ => (0, 0, 0))
    { predictions := [], slot_logger := initLogger ["hotel-area"] }
    "hotel-area" { total := 0, hit := 0, acc := 0 }
    (by simp [initLogger]) rfl

/-- Witness for C3 at a matching generation for a slot with counters 3/2. -/
theorem c3_witness :
    (recordSlot [("hotel-area", { total := 3, hit := 2, acc := 0 })]
        { ID := "D1", turn_id := "0", domains := ["hotel"],
          slot_text := "hotel-area", value_text := "east",
          turn_belief := ["hotel-area-east"], value := "east" }).map
        (fun lg => lookupA "hotel-area" lg) =
      Except.ok (some { total := 4, hit := 3, acc := 0 }) := by
  simpa using c3_slot_logger_counts
    [("hotel-area", { total := 3, hit := 2, acc := 0 })]
    { ID := "D1", turn_id := "0", domains := ["hotel"],
      slot_text := "hotel-area", value_text := "east",
      turn_belief := ["hotel-area-east"], value := "east" }
    { total := 3, hit := 2, acc := 0 } (by decide)

/-- Witness for C4: a later example for the same turn carrying a different
ground-truth belief does not change the stored one. -/
theorem c4_witness :
    (getTurn (List.foldl ingestPred
        [("D1", { domain := "hotel",
                  turns := [("0", { turn_belief := ["hotel-area-east"],
                                    pred_belief := [] })] })]
        [{ ID := "D1", turn_id := "0", domains := ["hotel"],
           slot_text := "hotel-area", value_text := "east",
           turn_belief := ["hotel-area-west"], value := "east" }]) "D1" "0").map
        TurnRecord.turn_belief =
      some ["hotel-area-east"] :=
  c4_turn_belief_never_overwritten
    [("D1", { domain := "hotel",
              turns := [("0", { turn_belief := ["hotel-area-east"],
                                pred_belief := [] })] })]
    [{ ID := "D1", turn_id := "0", domains := ["hotel"],
       slot_text := "hotel-area", value_text := "east",
       turn_belief := ["hotel-area-west"], value := "east" }]
    "D1" "0" { turn_belief := ["hotel-area-east"], pred_belief := [] }
    (by decide)

/-- Witness for the amended C5 at a fresh dialogue. -/
theorem c5_witness :
    (lookupA "D1" (ingestPred []
        { ID := "D1", turn_id := "0", domains := ["hotel"],
          slot_text := "hotel-area", value_text := "east",
          turn_belief := ["hotel-area-east"], value := "east" })).map
        DialRecord.domain = some "hotel" ∧
    (getTurn (ingestPred []
        { ID := "D1", turn_id := "0", domains := ["hotel"],
          slot_text := "hotel-area", value_text := "east",
          turn_belief := ["hotel-area-east"], value := "east" }) "D1" "0").map
        TurnRecord.turn_belief = some ["hotel-area-east"] ∧
    (getTurn (ingestPred []
        { ID := "D1", turn_id := "0", domains := ["hotel"],
          slot_text := "hotel-area", value_text := "east",
          turn_belief := ["hotel-area-east"], value := "east" }) "D1" "0").map
        TurnRecord.pred_belief = some ["hotel-area-east"] := by
  simpa using c5_first_sighting []
    { ID := "D1", turn_id := "0", domains := ["hotel"],
      slot_text := "hotel-area", value_text := "east",
      turn_belief := ["hotel-area-east"], value := "east" } rfl

/-- Witness for the amended C6: re-ingesting `"none"` on an existing turn is
a no-op on the accumulator. -/
theorem c6_witness :
    ingestPred
        [("D1", { domain := "hotel",
                  turns := [("0", { turn_belief := ["hotel-area-east"],
                                    pred_belief := [] })] })]
        { ID := "D1", turn_id := "0", domains := ["hotel"],
          slot_text := "hotel-area", value_text := "east",
          turn_belief := ["hotel-area-east"], value := "none" } =
      [("D1", { domain := "hotel",
                turns := [("0", { turn_belief := ["hotel-area-east"],
                                  pred_belief := [] })] })] :=
  c6_none_noop
    [("D1", { domain := "hotel",
              turns := [("0", { turn_belief := ["hotel-area-east"],
                                pred_belief := [] })] })]
    { ID := "D1", turn_id := "0", domains := ["hotel"],
      slot_text := "hotel-area", value_text := "east",
      turn_belief := ["hotel-area-east"], value := "none" }
    { turn_belief := ["hotel-area-east"], pred_belief := [] }
    rfl (by decide)

/-- Witness for C7 at a one-slot logger with counters 1/1. -/
theorem c7_witness :
    ([("hotel-area", [(1 : ℚ), 1, 1])] : List (String × List ℚ)).map Prod.fst =
      ["hotel-area"] ∧
    ([("hotel-area", [(1 : ℚ), 1, 1])] : List (String × List ℚ)) =
      [("hotel-area", ({ total := 1, hit := 1, acc := 0 } : SlotLog))].map (fun p =>
        (p.1, [(p.2.total : ℚ), (p.2.hit : ℚ), (p.2.hit : ℚ) / (p.2.total : ℚ)])) ∧
    ([("Joint Acc", (0 : ℚ)), ("Turn Acc", 0), ("Joint F1", 0)] :
        List (String × ℚ)).map Prod.fst = ["Joint Acc", "Turn Acc", "Joint F1"] :=
  c7_output_documents ["hotel-area"] (fun _ _ => (0, 0, 0))
    { predictions := [], slot_logger := [("hotel-area", { total := 1, hit := 1, acc := 0 })] }
    { slot_acc_file := [("hotel-area", [1, 1, 1])],
      prediction_file := [],
      result_file := [("Joint Acc", 0), ("Turn Acc", 0), ("Joint F1", 0)] }
    rfl (by
      unfold finalizeAndPersist
      rw [finalizeLogger_singleton _ _ (by norm_num), except_bind_ok,
        except_pure_eq_ok]
      norm_num [slotAccRow])

/-- Witness for C8 at a one-slot logger with counters 10/7. -/
theorem c8_witness :
    (lookupA "hotel-area"
        [("hotel-area", ({ total := 10, hit := 7, acc := (7 : ℚ) / 10 } : SlotLog))]).map
        SlotLog.acc = some ((7 : ℚ) / 10) ∧
    ((7 : ℚ) / 10) = 0.7 := by
  simpa using c8_exact_ratio
    [("hotel-area", { total := 10, hit := 7, acc := 0 })]
    [("hotel-area", { total := 10, hit := 7, acc := (7 : ℚ) / 10 })]
    "hotel-area" 0 (by decide)
    (by
      rw [finalizeLogger_singleton _ _ (by norm_num)]
      norm_num)

/-- Witness for C9: the same slot generated twice with values `"east"` then
`"west"` ends with both entries in order. -/
theorem c9_witness :
    (getTurn (ingestPred (ingestPred []
        { ID := "D1", turn_id := "0", domains := ["hotel"],
          slot_text := "hotel-area", value_text := "east",
          turn_belief := ["hotel-area-east"], value := "east" })
        { ID := "D1", turn_id := "0", domains := ["hotel"],
          slot_text := "hotel-area", value_text := "east",
          turn_belief := ["hotel-area-east"], value := "west" }) "D1" "0").map
        TurnRecord.pred_belief =
      some ["hotel-area-east", "hotel-area-west"] := by
  simpa using c9_duplicate_append []
    { ID := "D1", turn_id := "0", domains := ["hotel"],
      slot_text := "hotel-area", value_text := "east",
      turn_belief := ["hotel-area-east"], value := "east" }
    { ID := "D1", turn_id := "0", domains := ["hotel"],
      slot_text := "hotel-area", value_text := "east",
      turn_belief := ["hotel-area-east"], value := "west" }
    rfl rfl rfl (by decide) (by decide)

/-- Witness for C10 at a slot name outside `ALL_SLOTS`. -/
theorem c10_witness :
    ingestExample { predictions := [], slot_logger := initLogger ["hotel-area"] }
        { ID := "D1", turn_id := "0", domains := ["hotel"],
          slot_text := "restaurant-food", value_text := "east",
          turn_belief := [], value := "east" } =
      Except.error EvalErr.keyError :=
  c10_unknown_slot_key_error ["hotel-area"]
    { predictions := [], slot_logger := initLogger ["hotel-area"] }
    { ID := "D1", turn_id := "0", domains := ["hotel"],
      slot_text := "restaurant-food", value_text := "east",
      turn_belief := [], value := "east" }
    rfl (by decide)

end T5DST
